import Mathlib

/-!
# Formal model of the SaaS-Invoice backend (src/backend/app.py)

This file gives a shallow embedding, in Lean 4, of the pure request-handling
logic of the Flask backend `src/backend/app.py`:

* `parse_date` — the date-normalisation helper (lines 58-84), together with a
  model of the slice of CPython `datetime.strptime` / `strftime` behaviour it
  relies on for its nine fixed formats;
* `postprocess` / `llm_error_dict` / `extract_data_from_text` — the
  post-processing of the LLM JSON payload (lines 124-214);
* `process_file` — the OCR dispatch and its error cases (lines 86-122);
* `process_invoice` — the HTTP endpoint (lines 217-243).

External effects (pdf2image, pytesseract, the Gemini API call, `json.loads`)
are opaque third-party invocations; they are modelled as explicit parameters
carrying the single outcome of the corresponding call.  Python runtime values
flowing out of `json.loads` are modelled by the inductive type `PyVal`, with
floats modelled as exact fractions (sign, zero-ness and defaulting behaviour
— all that this code inspects — are preserved by that abstraction).
-/

/-! ### Characters and digits -/

/-- ASCII digit test, as used by the `\d` character class of the
`_strptime` regexes (the formats here only meet ASCII input positions). -/
def isDigitChar (c : Char) : Bool := decide (48 ≤ c.toNat ∧ c.toNat ≤ 57)

/-- Numeric value of an ASCII digit character. -/
def digitVal (c : Char) : Nat := c.toNat - 48

/-- The ASCII digit character for `n ≤ 9`. -/
def digitChar (n : Nat) : Char := Char.ofNat (48 + n)

/-- ASCII whitespace, the characters matched by `\s` in the `_strptime`
regexes on the inputs relevant here. -/
def isSpaceChar (c : Char) : Bool :=
  decide (c = ' ' ∨ c = '\t' ∨ c = '\n' ∨ c = '\x0b' ∨ c = '\x0c' ∨ c = '\r')

/-- ASCII lower-casing of one character (model of `str.lower` restricted to
ASCII, which is all `parse_date` compares against: the literal `'n/a'`). -/
def lowerChar (c : Char) : Char :=
  if 65 ≤ c.toNat ∧ c.toNat ≤ 90 then Char.ofNat (c.toNat + 32) else c

/-- Model of Python `str.lower()` (ASCII fragment). -/
def asciiLower (s : String) : String := String.mk (s.data.map lowerChar)

/-! ### Calendar validity (the checks of the `datetime.date` constructor) -/

/-- Gregorian leap-year rule, as implemented by `datetime`. -/
def isLeapYear (y : Nat) : Bool := decide ((y % 4 = 0 ∧ y % 100 ≠ 0) ∨ y % 400 = 0)

/-- Number of days of month `m` of year `y`, as implemented by `datetime`. -/
def daysInMonth (y m : Nat) : Nat :=
  if m = 2 then (if isLeapYear y then 29 else 28)
  else if m = 4 ∨ m = 6 ∨ m = 9 ∨ m = 11 then 30
  else 31

/-- The validity check performed by the `datetime.date` constructor
(`MINYEAR = 1`, `MAXYEAR = 9999`, day within the month). -/
def validDate (y m d : Nat) : Bool :=
  decide (1 ≤ y ∧ y ≤ 9999 ∧ 1 ≤ m ∧ m ≤ 12 ∧ 1 ≤ d) && decide (d ≤ daysInMonth y m)

/-! ### Rendering: `datetime.strftime('%Y-%m-%d')` -/

/-- Two-digit zero-padded decimal rendering (`%m` / `%d` of `strftime`),
as a character list; correct for `n ≤ 99`. -/
def pad2chars (n : Nat) : List Char := [digitChar (n / 10), digitChar (n % 10)]

/-- Four-digit zero-padded decimal rendering (`%Y` of `strftime`, per the
table of the `datetime` docs: `0001 … 9999`), as a character list; correct
for `n ≤ 9999`.  (Some libc implementations leave years below 1000
unpadded; every date rendered by this program that is also re-parsed has a
four-digit year, so the distinction is immaterial here.) -/
def pad4chars (n : Nat) : List Char :=
  [digitChar (n / 1000), digitChar (n / 100 % 10), digitChar (n / 10 % 10), digitChar (n % 10)]

/-- `datetime(y, m, d).strftime('%Y-%m-%d')`. -/
def render_iso (y m d : Nat) : String :=
  String.mk (pad4chars y ++ '-' :: (pad2chars m ++ '-' :: pad2chars d))

/-! ### Field matchers of `_strptime`

CPython's `_strptime` compiles each directive to a regex fragment:

* `%Y` → `\d\d\d\d` (exactly four digits);
* `%m` → `1[0-2]|0[1-9]|[1-9]`;
* `%d` → `3[01]|[12]\d|0[1-9]|[1-9]`;
* `%b` → the locale's abbreviated month names, case-insensitively;
* whitespace in the format → `\s+`.

In the nine formats used by `parse_date`, every numeric field and every
whitespace run is followed by a character that is neither a digit nor
whitespace (a separator, a letter, or end of string), so the regex
alternation/greediness never succeeds through backtracking into a shorter
alternative; the deterministic matchers below are therefore equivalent. -/

/-- `%Y`: exactly four digits. -/
def parseY : List Char → Option (Nat × List Char)
  | c1 :: c2 :: c3 :: c4 :: rest =>
    if isDigitChar c1 && isDigitChar c2 && isDigitChar c3 && isDigitChar c4 then
      some (1000 * digitVal c1 + 100 * digitVal c2 + 10 * digitVal c3 + digitVal c4, rest)
    else none
  | _ => none

/-- Shared matcher for `%m` (`lo = 1, hi = 12`) and `%d` (`lo = 1, hi = 31`):
a two-digit value `lo ≤ v ≤ hi` (zero-padded, covering exactly the two-digit
alternatives of the regexes above), else a single non-zero digit. -/
def parse2 (lo hi : Nat) : List Char → Option (Nat × List Char)
  | c1 :: c2 :: rest =>
    if isDigitChar c1 && isDigitChar c2 then
      if decide (lo ≤ 10 * digitVal c1 + digitVal c2) &&
          decide (10 * digitVal c1 + digitVal c2 ≤ hi) then
        some (10 * digitVal c1 + digitVal c2, rest)
      else none
    else if isDigitChar c1 && decide (1 ≤ digitVal c1) then some (digitVal c1, c2 :: rest)
    else none
  | [c1] =>
    if isDigitChar c1 && decide (1 ≤ digitVal c1) then some (digitVal c1, []) else none
  | [] => none

/-- The English abbreviated month names (the `C`/POSIX locale of the
deployment), keyed lower-case for the case-insensitive `%b` match. -/
def monthAbbrevs : List (List Char × Nat) :=
  [(['j','a','n'], 1), (['f','e','b'], 2), (['m','a','r'], 3), (['a','p','r'], 4),
   (['m','a','y'], 5), (['j','u','n'], 6), (['j','u','l'], 7), (['a','u','g'], 8),
   (['s','e','p'], 9), (['o','c','t'], 10), (['n','o','v'], 11), (['d','e','c'], 12)]

/-- `%b`: a three-character abbreviated month name, case-insensitively. -/
def parseB : List Char → Option (Nat × List Char)
  | c1 :: c2 :: c3 :: rest =>
    match monthAbbrevs.lookup [lowerChar c1, lowerChar c2, lowerChar c3] with
    | some m => some (m, rest)
    | none => none
  | _ => none

/-- A whitespace run in the format (`\s+`): at least one whitespace
character, then greedily all following whitespace. -/
def skipWs1 : List Char → Option (List Char)
  | c :: rest => if isSpaceChar c then some (rest.dropWhile isSpaceChar) else none
  | [] => none

/-! ### Formats and the matching loop -/

/-- One directive of a `strptime` format string. -/
inductive FmtTok where
  | ty                -- %Y
  | tm                -- %m
  | td                -- %d
  | tb                -- %b
  | lit (c : Char)    -- a literal character
  | ws                -- a whitespace run
  deriving DecidableEq

/-- The `(year, month, day)` accumulator of `_strptime`; fields default to
1900-01-01 before any directive assigns them. -/
structure StpAcc where
  year : Nat
  month : Nat
  day : Nat
  deriving DecidableEq

/-- Run a format over the input characters; succeeds only if the whole
input is consumed (`_strptime` raises on unconverted trailing data). -/
def runFmt : List FmtTok → List Char → StpAcc → Option StpAcc
  | [], [], acc => some acc
  | [], _ :: _, _ => none
  | .ty :: toks, cs, acc =>
    match parseY cs with
    | some (v, rest) => runFmt toks rest { acc with year := v }
    | none => none
  | .tm :: toks, cs, acc =>
    match parse2 1 12 cs with
    | some (v, rest) => runFmt toks rest { acc with month := v }
    | none => none
  | .td :: toks, cs, acc =>
    match parse2 1 31 cs with
    | some (v, rest) => runFmt toks rest { acc with day := v }
    | none => none
  | .tb :: toks, cs, acc =>
    match parseB cs with
    | some (v, rest) => runFmt toks rest { acc with month := v }
    | none => none
  | .lit c :: toks, cs, acc =>
    match cs with
    | c2 :: rest => if c2 = c then runFmt toks rest acc else none
    | [] => none
  | .ws :: toks, cs, acc =>
    match skipWs1 cs with
    | some rest => runFmt toks rest acc
    | none => none

/-- `datetime.strptime(s, f)` restricted to the formats of `parse_date`:
match the whole string, then validate through the `datetime.date`
constructor; `none` models a raised `ValueError`. -/
def strptime (f : List FmtTok) (s : String) : Option (Nat × Nat × Nat) :=
  match runFmt f s.data ⟨1900, 1, 1⟩ with
  | some acc =>
    if validDate acc.year acc.month acc.day then some (acc.year, acc.month, acc.day) else none
  | none => none

def fmtYmd : List FmtTok := [.ty, .lit '-', .tm, .lit '-', .td]          -- '%Y-%m-%d'
def fmt_mdY_slash : List FmtTok := [.tm, .lit '/', .td, .lit '/', .ty]   -- '%m/%d/%Y'
def fmt_dmY_slash : List FmtTok := [.td, .lit '/', .tm, .lit '/', .ty]   -- '%d/%m/%Y'
def fmt_mdY_dash : List FmtTok := [.tm, .lit '-', .td, .lit '-', .ty]    -- '%m-%d-%Y'
def fmt_dmY_dash : List FmtTok := [.td, .lit '-', .tm, .lit '-', .ty]    -- '%d-%m-%Y'
def fmt_dmY_dot : List FmtTok := [.td, .lit '.', .tm, .lit '.', .ty]     -- '%d.%m.%Y'
def fmt_mdY_dot : List FmtTok := [.tm, .lit '.', .td, .lit '.', .ty]     -- '%m.%d.%Y'
def fmt_bdY : List FmtTok := [.tb, .ws, .td, .lit ',', .ws, .ty]         -- '%b %d, %Y'
def fmt_dbY : List FmtTok := [.td, .ws, .tb, .ws, .ty]                   -- '%d %b %Y'

/-- The `formats_to_try` list of `parse_date`, in source order. -/
def formats_to_try : List (List FmtTok) :=
  [fmtYmd, fmt_mdY_slash, fmt_dmY_slash, fmt_mdY_dash, fmt_dmY_dash,
   fmt_dmY_dot, fmt_mdY_dot, fmt_bdY, fmt_dbY]

/-- The `for date_format in formats_to_try: try … except ValueError: continue`
loop: the first successful parse wins. -/
def firstSome {α : Type} : List (Option α) → Option α
  | [] => none
  | some a :: _ => some a
  | none :: rest => firstSome rest

/-! ### Python runtime values -/

/-- A Python float, modelled as an exact (unreduced) fraction
`num / den` with `den > 0` in every value this file constructs.  The
backend only constructs, passes through, and truthiness-tests floats, so
the exact-fraction abstraction preserves all inspected behaviour (sign,
zero-ness); IEEE rounding is not modelled. -/
structure PyFloat where
  num : Int
  den : Nat
  deriving DecidableEq

/-- The float literal `0.0`. -/
def pyZero : PyFloat := ⟨0, 1⟩

/-- The float literal `0.5`. -/
def pyHalf : PyFloat := ⟨1, 2⟩

/-- Python values produced by `json.loads` (plus `None` from `dict.get`). -/
inductive PyVal where
  | pnone
  | pbool (b : Bool)
  | pint (n : Int)
  | pfloat (x : PyFloat)
  | pstr (s : String)
  | plist (l : List PyVal)
  | pdict (kvs : List (String × PyVal))

/-- Python truthiness (`bool(x)`), for the value shapes of `PyVal`
(a fraction with positive denominator is zero iff its numerator is). -/
def py_truthy : PyVal → Bool
  | .pnone => false
  | .pbool b => b
  | .pint n => decide (n ≠ 0)
  | .pfloat x => decide (x.num ≠ 0)
  | .pstr s => !s.data.isEmpty
  | .plist l => !l.isEmpty
  | .pdict kvs => !kvs.isEmpty

/-! ### `parse_date` (app.py lines 58-84)

The Python function receives whatever `data.get(…)` returned, so its
argument is an arbitrary runtime value.  `if not date_str` is truthiness;
a truthy non-string then raises `AttributeError` at `date_str.lower()`
(modelled by `.error`), which the caller's `try` converts to the degraded
result. -/
def parse_date (date_str : PyVal) (default_date : String) : Except String String :=
  if py_truthy date_str = false then .ok default_date
  else
    match date_str with
    | .pstr s =>
      if asciiLower s = "n/a" then .ok default_date
      else
        match firstSome (formats_to_try.map (fun f => strptime f s)) with
        | some (y, m, d) => .ok (render_iso y m d)
        | none => .ok default_date
    | _ => .error "AttributeError: object has no attribute lower"

example : parse_date (.pstr "2025-11-02") "D" = .ok "2025-11-02" := rfl
example : parse_date (.pstr "11/02/2025") "D" = .ok "2025-11-02" := rfl
example : parse_date (.pstr "02/11/2025") "D" = .ok "2025-02-11" := rfl
example : parse_date (.pstr "02.11.2025") "D" = .ok "2025-11-02" := rfl
example : parse_date (.pstr "Nov 02, 2025") "D" = .ok "2025-11-02" := rfl
example : parse_date (.pstr "02 Nov 2025") "D" = .ok "2025-11-02" := rfl
example : parse_date (.pstr "2025-02-30") "D" = .ok "D" := rfl
example : parse_date (.pstr "N/A") "D" = .ok "D" := rfl
example : parse_date (.pstr "") "D" = .ok "D" := rfl
example : parse_date .pnone "D" = .ok "D" := rfl
example : parse_date (.pstr "garbage") "D" = .ok "D" := rfl
example : parse_date (.pstr "2024-02-29") "D" = .ok "2024-02-29" := rfl
example : parse_date (.pstr "2025-1-2") "D" = .ok "2025-01-02" := rfl

/-! ### Small Python string/number primitives used by the backend -/

/-- `str.strip()` with no argument: remove leading and trailing whitespace
(ASCII fragment of Python's unicode whitespace). -/
def pyStripStr (s : String) : String :=
  String.mk (((s.data.dropWhile isSpaceChar).reverse.dropWhile isSpaceChar).reverse)

/-- Leading decimal digits of a character list, with the remainder. -/
def takeDigits : List Char → List Nat × List Char
  | c :: rest =>
    if isDigitChar c then
      let p := takeDigits rest
      (digitVal c :: p.1, p.2)
    else ([], c :: rest)
  | [] => ([], [])

/-- Value of a big-endian digit list. -/
def natOfDigits (ds : List Nat) : Nat := ds.foldl (fun a d => 10 * a + d) 0

/-- Model of `float(s)` for a string argument: optional surrounding
whitespace, optional sign, decimal digits with optional fraction and
optional exponent.  (Python additionally accepts `inf`/`nan` and `_`
digit separators; no behaviour verified here depends on those inputs.) -/
def pyFloatOfString (s : String) : Option PyFloat :=
  let cs0 := ((s.data.dropWhile isSpaceChar).reverse.dropWhile isSpaceChar).reverse
  let sp : Int × List Char :=
    match cs0 with
    | '+' :: r => (1, r)
    | '-' :: r => (-1, r)
    | r => (1, r)
  let ip := takeDigits sp.2
  let fp : List Nat × List Char :=
    match ip.2 with
    | '.' :: r => takeDigits r
    | r => ([], r)
  if ip.1.isEmpty && fp.1.isEmpty then none
  else
    let mnum : Int := sp.1 * ((natOfDigits ip.1 * 10 ^ fp.1.length + natOfDigits fp.1 : Nat) : Int)
    let mden : Nat := 10 ^ fp.1.length
    match fp.2 with
    | [] => some ⟨mnum, mden⟩
    | e :: r =>
      if e = 'e' ∨ e = 'E' then
        let esp : Bool × List Char :=
          match r with
          | '+' :: r2 => (true, r2)
          | '-' :: r2 => (false, r2)
          | r2 => (true, r2)
        let ed := takeDigits esp.2
        if ed.1.isEmpty ∨ ¬ed.2.isEmpty then none
        else if esp.1 then some ⟨mnum * 10 ^ natOfDigits ed.1, mden⟩
        else some ⟨mnum, mden * 10 ^ natOfDigits ed.1⟩
      else none

/-- `float(x)` on the value shapes of `PyVal`; `.error` models the raised
`TypeError`/`ValueError`. -/
def py_float : PyVal → Except String PyFloat
  | .pfloat x => .ok x
  | .pint n => .ok ⟨n, 1⟩
  | .pbool b => .ok ⟨if b then 1 else 0, 1⟩
  | .pstr s =>
    match pyFloatOfString s with
    | some x => .ok x
    | none => .error ("could not convert string to float: " ++ s)
  | _ => .error "TypeError: float() argument must be a string or a real number"

/-- Python `a or b`: `a` if truthy, else `b`. -/
def py_or (a b : PyVal) : PyVal := if py_truthy a then a else b

/-- `dict.get(k)` (no default): `none` models Python `None` for an absent
key.  JSON objects decoded by `json.loads` have unique keys, so first-match
lookup agrees with Python dict lookup. -/
def pyGet (kvs : List (String × PyVal)) (k : String) : Option PyVal := kvs.lookup k

/-- `dict.get(k, dflt)`. -/
def pyGetD (kvs : List (String × PyVal)) (k : String) (dflt : PyVal) : PyVal :=
  (pyGet kvs k).getD dflt

/-- `x.strip()` on an arbitrary value: succeeds only on strings; `.error`
models the raised `AttributeError`. -/
def pyStrip : PyVal → Except String String
  | .pstr s => .ok (pyStripStr s)
  | _ => .error "AttributeError: object has no attribute strip"

/-! ### `extract_data_from_text` (app.py lines 124-214) -/

/-- The documented keys of the extraction record, in the order of the dict
literal at lines 180-193 (the eleven spec fields plus `status`). -/
def resultKeys : List String :=
  ["vendorName", "invoiceNumber", "invoiceDate", "dueDate", "subtotal", "tax",
   "totalAmount", "currency", "lineItems", "confidenceScore", "rationale", "status"]

/-- Lines 177-193: normalise the parsed LLM JSON into the extraction
record.  `.error` models any exception raised inside the `try` block after
`json.loads` succeeded; fallible steps appear in Python's evaluation order.
A non-dict payload raises `AttributeError` at the first `.get`. -/
def postprocess (data : PyVal) (today_date : String) : Except String (List (String × PyVal)) :=
  match data with
  | .pdict kvs =>
    match parse_date (pyGetD kvs "invoiceDate" .pnone) today_date with
    | .error e => .error e
    | .ok invoice_date =>
      match parse_date (pyGetD kvs "dueDate" .pnone) invoice_date with
      | .error e => .error e
      | .ok due_date =>
        match pyStrip (pyGetD kvs "vendorName" (.pstr "Unknown Vendor")) with
        | .error e => .error e
        | .ok vendorName =>
          match pyStrip (pyGetD kvs "invoiceNumber" (.pstr "N/A")) with
          | .error e => .error e
          | .ok invoiceNumber =>
            match py_float (py_or (pyGetD kvs "subtotal" (.pfloat pyZero)) (.pfloat pyZero)) with
            | .error e => .error e
            | .ok subtotal =>
              match py_float (py_or (pyGetD kvs "tax" (.pfloat pyZero)) (.pfloat pyZero)) with
              | .error e => .error e
              | .ok tax =>
                match py_float (py_or (pyGetD kvs "totalAmount" (.pfloat pyZero)) (.pfloat pyZero)) with
                | .error e => .error e
                | .ok totalAmount =>
                  match py_float (py_or (pyGetD kvs "confidenceScore" (.pfloat pyHalf)) (.pfloat pyHalf)) with
                  | .error e => .error e
                  | .ok confidenceScore =>
                    .ok [("vendorName", .pstr vendorName),
                         ("invoiceNumber", .pstr invoiceNumber),
                         ("invoiceDate", .pstr invoice_date),
                         ("dueDate", .pstr due_date),
                         ("subtotal", .pfloat subtotal),
                         ("tax", .pfloat tax),
                         ("totalAmount", .pfloat totalAmount),
                         ("currency", pyGetD kvs "currency" (.pstr "INR")),
                         ("lineItems", pyGetD kvs "lineItems" (.plist [])),
                         ("confidenceScore", .pfloat confidenceScore),
                         ("rationale", pyGetD kvs "rationale" (.pstr "N/A")),
                         ("status", .pstr "Pending")]
  | _ => .error "AttributeError: object has no attribute get"

/-- The degraded record built by the `except` block at lines 198-214. -/
def llm_error_dict (today_date e : String) : List (String × PyVal) :=
  [("vendorName", .pstr "AI Error"),
   ("invoiceNumber", .pstr "N/A"),
   ("invoiceDate", .pstr today_date),
   ("dueDate", .pstr today_date),
   ("subtotal", .pfloat pyZero),
   ("tax", .pfloat pyZero),
   ("totalAmount", .pfloat pyZero),
   ("currency", .pstr "INR"),
   ("lineItems", .plist []),
   ("confidenceScore", .pfloat pyZero),
   ("rationale", .pstr e),
   ("status", .pstr ("AI Error: " ++ e))]

/-- `text[:4000]`. -/
def pySlice (s : String) (n : Nat) : String := String.mk (s.data.take n)

/-- The f-string prompt of lines 134-168, up to the `{today_date}`
interpolation (Python `{{`/`}}` denote literal braces). -/
def prompt_part1 : String :=
  "\n    You are an expert financial analyst. Analyze the following OCR text from an invoice and extract the key fields.\n    Return your answer in a strict JSON format. Do not include any text outside of the JSON block.\n    \n    The JSON schema must be:\n    \x7b\n      \"vendorName\": \"Vendor\x27s company name\",\n      \"invoiceNumber\": \"The invoice ID or number\",\n      \"invoiceDate\": \"YYYY-MM-DD\",\n      \"dueDate\": \"YYYY-MM-DD\",\n      \"subtotal\": 0.00,\n      \"tax\": 0.00,\n      \"totalAmount\": 0.00,\n      \"currency\": \"e.g., \x27INR\x27, \x27USD\x27\",\n      \"lineItems\": [\n        \x7b \"description\": \"Item description\", \"quantity\": 1, \"unitPrice\": 0.00, \"total\": 0.00 \x7d\n      ],\n      \"confidenceScore\": 0.0,\n      \"rationale\": \"A one-sentence explanation for your extraction.\"\n    \x7d\n\n    Rules:\n    - If a field is not found, return \"N/A\" for strings, 0.00 for numbers, and [] for lineItems.\n    - If invoiceDate is not found, use today\x27s date: "

/-- The prompt between `{today_date}` and `{text[:4000]}`. -/
def prompt_part2 : String :=
  ".\n    - If dueDate is not found, use the invoiceDate.\n    - \"totalAmount\" must be the final total. \"subtotal\" is the total before tax.\n    - \"lineItems\" is an array of objects. Try to find at least one. If none are clear, return an empty array.\n    - \"confidenceScore\" is your estimated confidence from 0.0 (low) to 1.0 (high) that you correctly extracted the main fields.\n    - \"rationale\" is a *short* (one sentence) justification.\n\n    Here is the OCR text (first 4000 chars):\n    ---\n    "

/-- The prompt after `{text[:4000]}`. -/
def prompt_part3 : String := "\n    ---\n    "

/-- The full prompt sent to `llm_model.generate_content`. -/
def build_prompt (today_date text : String) : String :=
  prompt_part1 ++ today_date ++ prompt_part2 ++ pySlice text 4000 ++ prompt_part3

/-- The characters of the `"` ++ "```json" ++ `"` argument of `lstrip`
(Python's `str.lstrip(chars)` strips by character set, not by prefix). -/
def jsonFenceChars : List Char := [Char.ofNat 96, 'j', 's', 'o', 'n']

/-- Line 174: `response.text.strip().lstrip("...").rstrip("...")` — strip
whitespace, then leading fence-set characters, then trailing backticks. -/
def clean_response (rtext : String) : String :=
  String.mk ((((pyStripStr rtext).data.dropWhile (jsonFenceChars.contains ·)).reverse.dropWhile
    (fun c => c = Char.ofNat 96)).reverse)

/-- The `try` body after `json.loads` succeeded, together with the
`except` fallback: the record actually handed back for parsed data. -/
def extract_result (data : PyVal) (today_date : String) : List (String × PyVal) :=
  match postprocess data today_date with
  | .ok d => d
  | .error e => llm_error_dict today_date e

/-- `extract_data_from_text` (lines 124-214).  `llm` is the single outcome
of `llm_model.generate_content(prompt).text` as a function of the prompt;
`json_loads` the outcome of `json.loads`; both opaque external calls.
Only the unconfigured-model guard (outside the `try`) can raise. -/
def extract_data_from_text (llm_configured : Bool) (llm : String → Except String String)
    (json_loads : String → Except String PyVal) (today_date text : String) :
    Except String (List (String × PyVal)) :=
  if llm_configured = false then
    .error "Gemini AI Model is not configured or failed to initialize."
  else
    match llm (build_prompt today_date text) with
    | .error e => .ok (llm_error_dict today_date e)
    | .ok rtext =>
      match json_loads (clean_response rtext) with
      | .error e => .ok (llm_error_dict today_date e)
      | .ok data => .ok (extract_result data today_date)

/-! ### `process_file` (app.py lines 86-122) -/

/-- `process_file`.  `pdfPages` is the single outcome of
`convert_from_path` plus per-page `pytesseract` (the inner `try`); raised
errors are wrapped in the poppler message.  `imgText` is the outcome of
`pytesseract.image_to_string(Image.open(...))`; its exceptions propagate
unchanged (the outer `except` just re-raises). -/
def process_file (pdfPages : Except String (List String)) (imgText : Except String String)
    (file_extension : String) : Except String String :=
  if file_extension = ".pdf" then
    match pdfPages with
    | .error e => .error ("PDF processing failed. Is poppler installed? Error: " ++ e)
    | .ok pages =>
      let all_text := String.join (pages.map (fun t => t ++ "\n\n"))
      if all_text.data.isEmpty then .error "OCR failed to extract any text from the document."
      else .ok all_text
  else if file_extension = ".png" ∨ file_extension = ".jpg" ∨ file_extension = ".jpeg" then
    match imgText with
    | .error e => .error e
    | .ok t =>
      if t.data.isEmpty then .error "OCR failed to extract any text from the document."
      else .ok t
  else .error "Unsupported file type"

/-! ### `process_invoice` (app.py lines 217-243) -/

/-- Index of the last occurrence of `c`. -/
def lastIdxOf (c : Char) : List Char → Option Nat
  | [] => none
  | a :: rest =>
    match lastIdxOf c rest with
    | some i => some (i + 1)
    | none => if a = c then some 0 else none

/-- The extension component of `os.path.splitext` (posixpath): everything
from the last dot, provided it lies right of the last `/` and the basename
is not entirely dots before it. -/
def splitext_ext (p : String) : String :=
  let cs := p.data
  let sepIdx : Int := match lastIdxOf '/' cs with | some i => (i : Int) | none => -1
  let dotIdx : Int := match lastIdxOf '.' cs with | some i => (i : Int) | none => -1
  if sepIdx < dotIdx then
    let base := (cs.drop (sepIdx + 1).toNat).take (dotIdx - sepIdx - 1).toNat
    if base.any (fun c => c != '.') then String.mk (cs.drop dotIdx.toNat) else ""
  else ""

/-- An uploaded multipart file (werkzeug `FileStorage`): only its filename
is inspected before it is saved. -/
structure UploadedFile where
  filename : String

/-- The slice of the Flask request seen by the handler. -/
structure HttpRequest where
  files : List (String × UploadedFile)

/-- `jsonify({"status": "Error", "message": msg})`. -/
def jsonErr (msg : String) : PyVal :=
  .pdict [("status", .pstr "Error"), ("message", .pstr msg)]

/-- The `/process-invoice` handler: returns `(HTTP status, JSON body)`.
`request.files['invoiceFile']` takes the first matching entry of the
multidict.  `if file:` is `FileStorage` truthiness, which is
`bool(filename)` — always true once the empty-filename check has passed,
so the trailing `Unknown error` return of line 243 is unreachable. -/
def process_invoice (req : HttpRequest) (pdfPages : Except String (List String))
    (imgText : Except String String) (llm_configured : Bool)
    (llm : String → Except String String) (json_loads : String → Except String PyVal)
    (today_date : String) : Nat × PyVal :=
  match req.files.lookup "invoiceFile" with
  | none => (400, jsonErr "No file part in the request")
  | some file =>
    if file.filename = "" then (400, jsonErr "No selected file")
    else
      -- file_extension := splitext_ext(file.filename)
      match process_file pdfPages imgText (splitext_ext file.filename) with
      | .error e => (500, jsonErr e)
      | .ok ocr_text =>
        match extract_data_from_text llm_configured llm json_loads today_date ocr_text with
        | .error e => (500, jsonErr e)
        | .ok d => (200, .pdict [("status", .pstr "Success"), ("extractedData", .pdict d)])

example : postprocess (.pdict []) "2025-01-01" =
    .ok [("vendorName", .pstr "Unknown Vendor"), ("invoiceNumber", .pstr "N/A"),
         ("invoiceDate", .pstr "2025-01-01"), ("dueDate", .pstr "2025-01-01"),
         ("subtotal", .pfloat pyZero), ("tax", .pfloat pyZero), ("totalAmount", .pfloat pyZero),
         ("currency", .pstr "INR"), ("lineItems", .plist []),
         ("confidenceScore", .pfloat pyHalf), ("rationale", .pstr "N/A"),
         ("status", .pstr "Pending")] := rfl

example : splitext_ext "invoice.pdf" = ".pdf" := rfl
example : splitext_ext ".bashrc" = "" := rfl
example : splitext_ext "a/b.c/d" = "" := rfl
example : splitext_ext "archive.tar.gz" = ".gz" := rfl
example : pyFloatOfString "  -12.5e1 " = some ⟨-1250, 10⟩ := by decide
example : py_float (.pstr "3.5") = .ok ⟨35, 10⟩ := rfl
example : clean_response "```json\n\x7b\x7d\n```" = "\n\x7b\x7d\n" := rfl

/-! ### Helper lemmas -/

theorem firstSome_eq_none {α : Type} (l : List (Option α)) (h : ∀ x ∈ l, x = none) :
    firstSome l = none := by
  induction l with
  | nil => rfl
  | cons a rest ih =>
    have ha := h a (by simp)
    subst ha
    exact ih (fun x hx => h x (by simp [hx]))

theorem firstSome_mem {α : Type} (l : List (Option α)) (a : α) (h : firstSome l = some a) :
    some a ∈ l := by
  induction l with
  | nil => simp [firstSome] at h
  | cons x rest ih =>
    cases x with
    | some b =>
      have hb : some b = some a := h
      simp [hb]
    | none =>
      have : firstSome rest = some a := h
      simp [ih this]

theorem strptime_some_valid (f : List FmtTok) (s : String) (y m d : Nat)
    (h : strptime f s = some (y, m, d)) : validDate y m d = true := by
  unfold strptime at h
  split at h
  · split at h
    · rename_i acc hrun hvalid
      simp only [Option.some.injEq, Prod.mk.injEq] at h
      obtain ⟨h1, h2, h3⟩ := h
      rw [← h1, ← h2, ← h3]
      exact hvalid
    · exact absurd h (by simp)
  · exact absurd h (by simp)

/-- `parse_date` on a string whose lower-casing is `n/a` returns the default. -/
theorem parse_date_lower_na (s dflt : String) (h : asciiLower s = "n/a") :
    parse_date (.pstr s) dflt = .ok dflt := by
  have hdata : s.data.map lowerChar = ['n', '/', 'a'] := by
    simpa [asciiLower] using congrArg String.data h
  cases hsd : s.data with
  | nil => rw [hsd] at hdata; simp at hdata
  | cons c t =>
    have htr : py_truthy (.pstr s) = true := by simp [py_truthy, hsd]
    simp [parse_date, htr, h]

/-! ### Claims C9 and C2 -/

/-- C9: `parse_date` treats the string `'N/A'` — and any casing of it,
since the comparison is against the lower-cased input — the same as absent
input, returning the supplied default, even though the string is
non-empty. -/
theorem C9_na_treated_as_absent (s dflt : String) (h : asciiLower s = "n/a") :
    parse_date (.pstr s) dflt = .ok dflt ∧ s ≠ "" := by
  refine ⟨parse_date_lower_na s dflt h, ?_⟩
  intro h0
  rw [h0] at h
  exact absurd (congrArg String.data h) (by simp [asciiLower])

/-- Witness for C9 at the concrete input `"N/A"`. -/
theorem C9_witness :
    parse_date (.pstr "N/A") "2025-01-01" = .ok "2025-01-01" ∧ "N/A" ≠ "" :=
  C9_na_treated_as_absent "N/A" "2025-01-01" rfl

/-- C2: for absent input (`None` or the empty string) and for any string
matched by none of the nine formats, `parse_date` returns the supplied
default unchanged. -/
theorem C2_default_unchanged (v : PyVal) (dflt : String)
    (h : v = .pnone ∨ v = .pstr "" ∨
      ∃ s, v = .pstr s ∧ ∀ f ∈ formats_to_try, strptime f s = none) :
    parse_date v dflt = .ok dflt := by
  rcases h with rfl | rfl | ⟨s, rfl, hall⟩
  · rfl
  · rfl
  · cases hsd : s.data with
    | nil => simp [parse_date, py_truthy, hsd]
    | cons c t =>
      have htr : py_truthy (.pstr s) = true := by simp [py_truthy, hsd]
      by_cases hna : asciiLower s = "n/a"
      · exact parse_date_lower_na s dflt hna
      · have hfs : firstSome (formats_to_try.map (fun f => strptime f s)) = none := by
          apply firstSome_eq_none
          intro x hx
          obtain ⟨f, hf, rfl⟩ := List.mem_map.mp hx
          exact hall f hf
        simp [parse_date, htr, hna, hfs]

/-- Witness for C2 at `None`, the empty string, and the unparseable
string `"hello"`. -/
theorem C2_witness :
    parse_date .pnone "2025-01-01" = .ok "2025-01-01" ∧
    parse_date (.pstr "") "2025-01-01" = .ok "2025-01-01" ∧
    parse_date (.pstr "hello") "2025-01-01" = .ok "2025-01-01" :=
  ⟨C2_default_unchanged _ _ (.inl rfl),
   C2_default_unchanged _ _ (.inr (.inl rfl)),
   C2_default_unchanged _ _ (.inr (.inr ⟨"hello", rfl, by decide⟩))⟩

/-! ### Claims about the HTTP handler: C5, C7, C6 -/

theorem postprocess_keys (data : PyVal) (today_date : String) (r : List (String × PyVal))
    (h : postprocess data today_date = .ok r) : r.map Prod.fst = resultKeys := by
  unfold postprocess at h
  repeat' split at h
  all_goals first
    | (simp only [Except.ok.injEq] at h; subst h; rfl)
    | exact absurd h (by simp)

theorem llm_error_dict_keys (today_date e : String) :
    (llm_error_dict today_date e).map Prod.fst = resultKeys := rfl

theorem extract_ok_keys (llm_configured : Bool) (llm : String → Except String String)
    (json_loads : String → Except String PyVal) (today_date text : String)
    (d : List (String × PyVal))
    (h : extract_data_from_text llm_configured llm json_loads today_date text = .ok d) :
    d.map Prod.fst = resultKeys := by
  unfold extract_data_from_text at h
  split at h
  · exact absurd h (by simp)
  · split at h
    · simp only [Except.ok.injEq] at h
      subst h
      rfl
    · split at h
      · simp only [Except.ok.injEq] at h
        subst h
        rfl
      · simp only [Except.ok.injEq] at h
        subst h
        unfold extract_result
        split
        · rename_i r hr
          exact postprocess_keys _ _ _ hr
        · rfl

/-- C5: a POST without the `invoiceFile` part, or with an empty uploaded
filename, yields a 400 response whose JSON body carries an explanatory
message. -/
theorem C5_missing_file_400 (req : HttpRequest) (pdfPages : Except String (List String))
    (imgText : Except String String) (llm_configured : Bool)
    (llm : String → Except String String) (json_loads : String → Except String PyVal)
    (today_date : String) :
    (req.files.lookup "invoiceFile" = none →
      process_invoice req pdfPages imgText llm_configured llm json_loads today_date =
        (400, jsonErr "No file part in the request")) ∧
    (∀ f, req.files.lookup "invoiceFile" = some f → f.filename = "" →
      process_invoice req pdfPages imgText llm_configured llm json_loads today_date =
        (400, jsonErr "No selected file")) := by
  constructor
  · intro h
    simp [process_invoice, h]
  · intro f hf hname
    simp [process_invoice, hf, hname]

/-- Witness for C5: a request with no `invoiceFile` part, and one whose
file has an empty filename. -/
theorem C5_witness :
    process_invoice ⟨[]⟩ (.ok []) (.ok "") true (fun _ => .ok "") (fun _ => .ok .pnone)
        "2025-01-01" = (400, jsonErr "No file part in the request") ∧
    process_invoice ⟨[("invoiceFile", ⟨""⟩)]⟩ (.ok []) (.ok "") true (fun _ => .ok "")
        (fun _ => .ok .pnone) "2025-01-01" = (400, jsonErr "No selected file") :=
  ⟨(C5_missing_file_400 ⟨[]⟩ (.ok []) (.ok "") true (fun _ => .ok "") (fun _ => .ok .pnone)
      "2025-01-01").1 rfl,
   (C5_missing_file_400 ⟨[("invoiceFile", ⟨""⟩)]⟩ (.ok []) (.ok "") true (fun _ => .ok "")
      (fun _ => .ok .pnone) "2025-01-01").2 ⟨""⟩ rfl rfl⟩

/-- C7: every response of the handler has exactly one of the two
documented shapes — `200` with `{status: "Success", extractedData: …}`
where the record carries the documented keys, or an HTTP error status
(≥ 400) with `{status: "Error", message: …}`. -/
theorem C7_response_shape (req : HttpRequest) (pdfPages : Except String (List String))
    (imgText : Except String String) (llm_configured : Bool)
    (llm : String → Except String String) (json_loads : String → Except String PyVal)
    (today_date : String) :
    (∃ d, process_invoice req pdfPages imgText llm_configured llm json_loads today_date =
        (200, .pdict [("status", .pstr "Success"), ("extractedData", .pdict d)]) ∧
        d.map Prod.fst = resultKeys) ∨
    (∃ code msg,
      process_invoice req pdfPages imgText llm_configured llm json_loads today_date =
        (code, jsonErr msg) ∧ 400 ≤ code) := by
  unfold process_invoice
  split
  · exact .inr ⟨400, _, rfl, by omega⟩
  · split
    · exact .inr ⟨400, _, rfl, by omega⟩
    · split
      · exact .inr ⟨500, _, rfl, by omega⟩
      · split
        · exact .inr ⟨500, _, rfl, by omega⟩
        · rename_i d hd
          exact .inl ⟨d, rfl, extract_ok_keys _ _ _ _ _ _ hd⟩

/-- C6: each failure kind is caught and converted — a missing file part to
an HTTP 400, an extraction-library failure (unsupported extension, empty
OCR output) to an exception that the handler converts to an HTTP 500, and
an LLM-call failure (including a malformed JSON response) to the
best-effort degraded record.  The last conjunct shows the language model
is consulted at the single built prompt only, so no failed call is
retried: the handler's outcome depends only on that one invocation. -/
theorem C6_failure_conversion :
    (∀ (req : HttpRequest) pdfPages imgText cfg llm jl today_date,
      req.files.lookup "invoiceFile" = none →
      process_invoice req pdfPages imgText cfg llm jl today_date =
        (400, jsonErr "No file part in the request")) ∧
    (∀ pdfPages imgText ext, ext ≠ ".pdf" → ext ≠ ".png" → ext ≠ ".jpg" → ext ≠ ".jpeg" →
      process_file pdfPages imgText ext = .error "Unsupported file type") ∧
    (∀ imgText, process_file (.ok []) imgText ".pdf" =
      .error "OCR failed to extract any text from the document.") ∧
    (∀ pdfPages, process_file pdfPages (.ok "") ".png" =
      .error "OCR failed to extract any text from the document.") ∧
    (∀ (req : HttpRequest) f pdfPages imgText cfg llm jl today_date e,
      req.files.lookup "invoiceFile" = some f → f.filename ≠ "" →
      process_file pdfPages imgText (splitext_ext f.filename) = .error e →
      process_invoice req pdfPages imgText cfg llm jl today_date = (500, jsonErr e)) ∧
    (∀ llm jl today_date text e, (∀ p, llm p = .error e) →
      extract_data_from_text true llm jl today_date text = .ok (llm_error_dict today_date e)) ∧
    (∀ llm jl today_date text rtext e,
      llm (build_prompt today_date text) = .ok rtext →
      jl (clean_response rtext) = .error e →
      extract_data_from_text true llm jl today_date text = .ok (llm_error_dict today_date e)) ∧
    (∀ cfg llm1 llm2 jl today_date text,
      llm1 (build_prompt today_date text) = llm2 (build_prompt today_date text) →
      extract_data_from_text cfg llm1 jl today_date text =
        extract_data_from_text cfg llm2 jl today_date text) := by
  refine ⟨?_, ?_, ?_, ?_, ?_, ?_, ?_, ?_⟩
  · intro req pdfPages imgText cfg llm jl today_date h
    simp [process_invoice, h]
  · intro pdfPages imgText ext h1 h2 h3 h4
    simp [process_file, h1, h2, h3, h4]
  · intro imgText
    rfl
  · intro pdfPages
    rfl
  · intro req f pdfPages imgText cfg llm jl today_date e hf hname he
    simp [process_invoice, hf, hname, he]
  · intro llm jl today_date text e h
    unfold extract_data_from_text
    rw [h (build_prompt today_date text)]
    simp
  · intro llm jl today_date text rtext e h1 h2
    unfold extract_data_from_text
    rw [h1]
    simp [h2]
  · intro cfg llm1 llm2 jl today_date text h
    unfold extract_data_from_text
    rw [h]

/-- Witness for C6 at concrete requests, extensions and oracle outcomes. -/
theorem C6_witness :
    process_invoice ⟨[]⟩ (.ok ["x"]) (.ok "x") true (fun _ => .ok "x") (fun _ => .ok .pnone)
        "2025-01-01" = (400, jsonErr "No file part in the request") ∧
    process_file (.ok ["x"]) (.ok "x") ".txt" = .error "Unsupported file type" ∧
    process_file (.ok []) (.ok "x") ".pdf" =
      .error "OCR failed to extract any text from the document." ∧
    process_file (.ok ["x"]) (.ok "") ".png" =
      .error "OCR failed to extract any text from the document." ∧
    process_invoice ⟨[("invoiceFile", ⟨"a.txt"⟩)]⟩ (.ok ["x"]) (.ok "x") true
        (fun _ => .ok "x") (fun _ => .ok .pnone) "2025-01-01" =
      (500, jsonErr "Unsupported file type") ∧
    extract_data_from_text true (fun _ => .error "quota exceeded") (fun _ => .ok .pnone)
        "2025-01-01" "some text" = .ok (llm_error_dict "2025-01-01" "quota exceeded") ∧
    extract_data_from_text true (fun _ => .ok "not json") (fun _ => .error "Expecting value")
        "2025-01-01" "some text" = .ok (llm_error_dict "2025-01-01" "Expecting value") ∧
    extract_data_from_text true (fun _ => .ok "r1") (fun _ => .ok .pnone)
        "2025-01-01" "some text" =
      extract_data_from_text true (fun _ => .ok "r1") (fun _ => .ok .pnone)
        "2025-01-01" "some text" := by
  refine ⟨C6_failure_conversion.1 ⟨[]⟩ _ _ _ _ _ _ rfl,
    C6_failure_conversion.2.1 _ _ ".txt" (by decide) (by decide) (by decide) (by decide),
    C6_failure_conversion.2.2.1 _,
    C6_failure_conversion.2.2.2.1 _,
    C6_failure_conversion.2.2.2.2.1 ⟨[("invoiceFile", ⟨"a.txt"⟩)]⟩ ⟨"a.txt"⟩ _ _ _ _ _ _ _
      rfl (by decide) rfl,
    C6_failure_conversion.2.2.2.2.2.1 _ _ _ _ _ (fun _ => rfl),
    C6_failure_conversion.2.2.2.2.2.2.1 _ _ _ _ "not json" _ rfl rfl,
    C6_failure_conversion.2.2.2.2.2.2.2 _ _ _ _ _ _ rfl⟩

/-! ### Claim C10: the 4000-character prompt truncation -/

/-- C10: only the first 4000 characters of the OCR text reach the prompt —
two texts agreeing on their first 4000 characters produce the same prompt
(and the same extraction outcome), and a text of at most 4000 characters
is embedded in the prompt in full. -/
theorem C10_prompt_truncation (today_date t1 t2 : String) :
    (pySlice t1 4000 = pySlice t2 4000 →
      build_prompt today_date t1 = build_prompt today_date t2) ∧
    (t1.data.length ≤ 4000 →
      build_prompt today_date t1 =
        prompt_part1 ++ today_date ++ prompt_part2 ++ t1 ++ prompt_part3) ∧
    (∀ llm_configured llm json_loads, pySlice t1 4000 = pySlice t2 4000 →
      extract_data_from_text llm_configured llm json_loads today_date t1 =
        extract_data_from_text llm_configured llm json_loads today_date t2) := by
  refine ⟨?_, ?_, ?_⟩
  · intro h
    unfold build_prompt
    rw [h]
  · intro h
    unfold build_prompt pySlice
    rw [List.take_of_length_le h]
  · intro cfg llm jl h
    unfold extract_data_from_text build_prompt
    rw [h]

/-- Witness for C10: two 'a'-runs longer than 4000 characters that agree
on their first 4000 characters, and a short text included verbatim. -/
theorem C10_witness :
    build_prompt "2025-01-01" (String.mk (List.replicate 4001 'a')) =
      build_prompt "2025-01-01" (String.mk (List.replicate 4002 'a')) ∧
    build_prompt "2025-01-01" "hi" =
      prompt_part1 ++ "2025-01-01" ++ prompt_part2 ++ "hi" ++ prompt_part3 := by
  have hsl : pySlice (String.mk (List.replicate 4001 'a')) 4000 =
      pySlice (String.mk (List.replicate 4002 'a')) 4000 := by
    unfold pySlice
    rw [List.take_replicate, List.take_replicate]
    norm_num
  exact ⟨(C10_prompt_truncation "2025-01-01" _ _).1 hsl,
    (C10_prompt_truncation "2025-01-01" "hi" "hi").2.1 (by decide)⟩

/-! ### Claim C3: all documented fields present, defaults for omitted ones -/

theorem pyGetD_none (kvs : List (String × PyVal)) (k : String) (d : PyVal)
    (hk : pyGet kvs k = none) : pyGetD kvs k d = d := by
  simp [pyGetD, hk]

/-- C3: a successfully normalised extraction record carries exactly the
documented keys (plus `status`), and every field the model's JSON omitted
is bound to its documented type-correct default (`dueDate` defaulting to
the normalised `invoiceDate`). -/
theorem C3_fields_and_defaults (kvs : List (String × PyVal)) (today_date : String)
    (r : List (String × PyVal))
    (h : postprocess (.pdict kvs) today_date = .ok r) :
    r.map Prod.fst = resultKeys ∧
    (pyGet kvs "vendorName" = none → r.lookup "vendorName" = some (.pstr "Unknown Vendor")) ∧
    (pyGet kvs "invoiceNumber" = none → r.lookup "invoiceNumber" = some (.pstr "N/A")) ∧
    (pyGet kvs "invoiceDate" = none → r.lookup "invoiceDate" = some (.pstr today_date)) ∧
    (pyGet kvs "dueDate" = none → r.lookup "dueDate" = r.lookup "invoiceDate") ∧
    (pyGet kvs "subtotal" = none → r.lookup "subtotal" = some (.pfloat pyZero)) ∧
    (pyGet kvs "tax" = none → r.lookup "tax" = some (.pfloat pyZero)) ∧
    (pyGet kvs "totalAmount" = none → r.lookup "totalAmount" = some (.pfloat pyZero)) ∧
    (pyGet kvs "currency" = none → r.lookup "currency" = some (.pstr "INR")) ∧
    (pyGet kvs "lineItems" = none → r.lookup "lineItems" = some (.plist [])) ∧
    (pyGet kvs "confidenceScore" = none → r.lookup "confidenceScore" = some (.pfloat pyHalf)) ∧
    (pyGet kvs "rationale" = none → r.lookup "rationale" = some (.pstr "N/A")) := by
  simp only [postprocess] at h
  split at h
  · exact absurd h (by simp)
  · rename_i invoice_date hinv
    split at h
    · exact absurd h (by simp)
    · rename_i due_date hdue
      split at h
      · exact absurd h (by simp)
      · rename_i vendorName hven
        split at h
        · exact absurd h (by simp)
        · rename_i invoiceNumber hnum
          split at h
          · exact absurd h (by simp)
          · rename_i subtotal hsub
            split at h
            · exact absurd h (by simp)
            · rename_i tax htax
              split at h
              · exact absurd h (by simp)
              · rename_i totalAmount htot
                split at h
                · exact absurd h (by simp)
                · rename_i confidenceScore hconf
                  simp only [Except.ok.injEq] at h
                  subst h
                  refine ⟨rfl, ?_, ?_, ?_, ?_, ?_, ?_, ?_, ?_, ?_, ?_, ?_⟩
                  · intro hk
                    rw [pyGetD_none _ _ _ hk] at hven
                    rw [show pyStrip (PyVal.pstr "Unknown Vendor") =
                      .ok "Unknown Vendor" from rfl] at hven
                    injection hven with hv
                    subst hv
                    rfl
                  · intro hk
                    rw [pyGetD_none _ _ _ hk] at hnum
                    rw [show pyStrip (PyVal.pstr "N/A") = .ok "N/A" from rfl] at hnum
                    injection hnum with hv
                    subst hv
                    rfl
                  · intro hk
                    rw [pyGetD_none _ _ _ hk] at hinv
                    rw [show parse_date PyVal.pnone today_date = .ok today_date from rfl] at hinv
                    injection hinv with hv
                    subst hv
                    rfl
                  · intro hk
                    rw [pyGetD_none _ _ _ hk] at hdue
                    rw [show parse_date PyVal.pnone invoice_date =
                      .ok invoice_date from rfl] at hdue
                    injection hdue with hv
                    show some (PyVal.pstr due_date) = some (PyVal.pstr invoice_date)
                    rw [hv]
                  · intro hk
                    rw [pyGetD_none _ _ _ hk] at hsub
                    rw [show py_float (py_or (PyVal.pfloat pyZero) (PyVal.pfloat pyZero)) =
                      .ok pyZero from rfl] at hsub
                    injection hsub with hv
                    subst hv
                    rfl
                  · intro hk
                    rw [pyGetD_none _ _ _ hk] at htax
                    rw [show py_float (py_or (PyVal.pfloat pyZero) (PyVal.pfloat pyZero)) =
                      .ok pyZero from rfl] at htax
                    injection htax with hv
                    subst hv
                    rfl
                  · intro hk
                    rw [pyGetD_none _ _ _ hk] at htot
                    rw [show py_float (py_or (PyVal.pfloat pyZero) (PyVal.pfloat pyZero)) =
                      .ok pyZero from rfl] at htot
                    injection htot with hv
                    subst hv
                    rfl
                  · intro hk
                    show some (pyGetD kvs "currency" (PyVal.pstr "INR")) =
                      some (PyVal.pstr "INR")
                    rw [pyGetD_none _ _ _ hk]
                  · intro hk
                    show some (pyGetD kvs "lineItems" (PyVal.plist [])) =
                      some (PyVal.plist [])
                    rw [pyGetD_none _ _ _ hk]
                  · intro hk
                    rw [pyGetD_none _ _ _ hk] at hconf
                    rw [show py_float (py_or (PyVal.pfloat pyHalf) (PyVal.pfloat pyHalf)) =
                      .ok pyHalf from rfl] at hconf
                    injection hconf with hv
                    subst hv
                    rfl
                  · intro hk
                    show some (pyGetD kvs "rationale" (PyVal.pstr "N/A")) =
                      some (PyVal.pstr "N/A")
                    rw [pyGetD_none _ _ _ hk]

/-- Witness for C3 at the empty JSON object: every field takes its
documented default. -/
theorem C3_witness :
    ([("vendorName", PyVal.pstr "Unknown Vendor"), ("invoiceNumber", PyVal.pstr "N/A"),
      ("invoiceDate", PyVal.pstr "2025-01-01"), ("dueDate", PyVal.pstr "2025-01-01"),
      ("subtotal", PyVal.pfloat pyZero), ("tax", PyVal.pfloat pyZero),
      ("totalAmount", PyVal.pfloat pyZero), ("currency", PyVal.pstr "INR"),
      ("lineItems", PyVal.plist []), ("confidenceScore", PyVal.pfloat pyHalf),
      ("rationale", PyVal.pstr "N/A"),
      ("status", PyVal.pstr "Pending")] : List (String × PyVal)).map Prod.fst = resultKeys ∧
    List.lookup "vendorName"
      [("vendorName", PyVal.pstr "Unknown Vendor"), ("invoiceNumber", PyVal.pstr "N/A"),
       ("invoiceDate", PyVal.pstr "2025-01-01"), ("dueDate", PyVal.pstr "2025-01-01"),
       ("subtotal", PyVal.pfloat pyZero), ("tax", PyVal.pfloat pyZero),
       ("totalAmount", PyVal.pfloat pyZero), ("currency", PyVal.pstr "INR"),
       ("lineItems", PyVal.plist []), ("confidenceScore", PyVal.pfloat pyHalf),
       ("rationale", PyVal.pstr "N/A"), ("status", PyVal.pstr "Pending")] =
      some (PyVal.pstr "Unknown Vendor") ∧
    List.lookup "confidenceScore"
      [("vendorName", PyVal.pstr "Unknown Vendor"), ("invoiceNumber", PyVal.pstr "N/A"),
       ("invoiceDate", PyVal.pstr "2025-01-01"), ("dueDate", PyVal.pstr "2025-01-01"),
       ("subtotal", PyVal.pfloat pyZero), ("tax", PyVal.pfloat pyZero),
       ("totalAmount", PyVal.pfloat pyZero), ("currency", PyVal.pstr "INR"),
       ("lineItems", PyVal.plist []), ("confidenceScore", PyVal.pfloat pyHalf),
       ("rationale", PyVal.pstr "N/A"), ("status", PyVal.pstr "Pending")] =
      some (PyVal.pfloat pyHalf) := by
  have h := C3_fields_and_defaults [] "2025-01-01"
    [("vendorName", PyVal.pstr "Unknown Vendor"), ("invoiceNumber", PyVal.pstr "N/A"),
     ("invoiceDate", PyVal.pstr "2025-01-01"), ("dueDate", PyVal.pstr "2025-01-01"),
     ("subtotal", PyVal.pfloat pyZero), ("tax", PyVal.pfloat pyZero),
     ("totalAmount", PyVal.pfloat pyZero), ("currency", PyVal.pstr "INR"),
     ("lineItems", PyVal.plist []), ("confidenceScore", PyVal.pfloat pyHalf),
     ("rationale", PyVal.pstr "N/A"), ("status", PyVal.pstr "Pending")] rfl
  exact ⟨h.1, h.2.1 rfl, h.2.2.2.2.2.2.2.2.2.2.1 rfl⟩

/-! ### Claim C4: the invariants of the extraction record -/

theorem parse_date_ok_canonical (v : PyVal) (dflt s : String)
    (h : parse_date v dflt = .ok s) :
    s = dflt ∨ ∃ y m d, validDate y m d = true ∧ s = render_iso y m d := by
  unfold parse_date at h
  split at h
  · injection h with h'
    exact .inl h'.symm
  · split at h
    · split at h
      · injection h with h'
        exact .inl h'.symm
      · split at h
        · rename_i s' hstr hna p y m d heq
          injection h with h'
          refine .inr ⟨y, m, d, ?_, h'.symm⟩
          obtain ⟨f, hf, hfe⟩ := List.mem_map.mp (firstSome_mem _ _ heq)
          exact strptime_some_valid f s' y m d hfe
        · injection h with h'
          exact .inl h'.symm
    · exact absurd h (by simp)

/-- C4 (amended): in every successfully normalised record the two dates
are canonical calendar-date renderings (when the supplied today-date is
one), and `subtotal`, `tax`, `totalAmount` and `confidenceScore` are
float values — but no non-negativity is enforced on them, and
`lineItems` is passed through exactly as the model returned it, with no
validation of its entries at all. -/
theorem C4_dates_canonical_floats_unchecked (kvs : List (String × PyVal))
    (yy mm dd : Nat) (r : List (String × PyVal))
    (hval : validDate yy mm dd = true)
    (h : postprocess (.pdict kvs) (render_iso yy mm dd) = .ok r) :
    (∃ y m d, validDate y m d = true ∧
      r.lookup "invoiceDate" = some (.pstr (render_iso y m d))) ∧
    (∃ y m d, validDate y m d = true ∧
      r.lookup "dueDate" = some (.pstr (render_iso y m d))) ∧
    (∃ x, r.lookup "subtotal" = some (.pfloat x)) ∧
    (∃ x, r.lookup "tax" = some (.pfloat x)) ∧
    (∃ x, r.lookup "totalAmount" = some (.pfloat x)) ∧
    (∃ x, r.lookup "confidenceScore" = some (.pfloat x)) ∧
    r.lookup "lineItems" = some (pyGetD kvs "lineItems" (.plist [])) := by
  simp only [postprocess] at h
  split at h
  · exact absurd h (by simp)
  · rename_i invoice_date hinv
    split at h
    · exact absurd h (by simp)
    · rename_i due_date hdue
      split at h
      · exact absurd h (by simp)
      · rename_i vendorName hven
        split at h
        · exact absurd h (by simp)
        · rename_i invoiceNumber hnum
          split at h
          · exact absurd h (by simp)
          · rename_i subtotal hsub
            split at h
            · exact absurd h (by simp)
            · rename_i tax htax
              split at h
              · exact absurd h (by simp)
              · rename_i totalAmount htot
                split at h
                · exact absurd h (by simp)
                · rename_i confidenceScore hconf
                  simp only [Except.ok.injEq] at h
                  subst h
                  have hinvc : ∃ y m d, validDate y m d = true ∧
                      invoice_date = render_iso y m d := by
                    rcases parse_date_ok_canonical _ _ _ hinv with hd | ⟨y, m, d, hv, hs⟩
                    · exact ⟨yy, mm, dd, hval, hd⟩
                    · exact ⟨y, m, d, hv, hs⟩
                  have hduec : ∃ y m d, validDate y m d = true ∧
                      due_date = render_iso y m d := by
                    rcases parse_date_ok_canonical _ _ _ hdue with hd | ⟨y, m, d, hv, hs⟩
                    · obtain ⟨y, m, d, hv, hs⟩ := hinvc
                      exact ⟨y, m, d, hv, hd.trans hs⟩
                    · exact ⟨y, m, d, hv, hs⟩
                  obtain ⟨y1, m1, d1, hv1, hs1⟩ := hinvc
                  obtain ⟨y2, m2, d2, hv2, hs2⟩ := hduec
                  refine ⟨⟨y1, m1, d1, hv1, ?_⟩, ⟨y2, m2, d2, hv2, ?_⟩, ⟨subtotal, rfl⟩,
                    ⟨tax, rfl⟩, ⟨totalAmount, rfl⟩, ⟨confidenceScore, rfl⟩, rfl⟩
                  · show some (PyVal.pstr invoice_date) = some (PyVal.pstr (render_iso y1 m1 d1))
                    rw [hs1]
                  · show some (PyVal.pstr due_date) = some (PyVal.pstr (render_iso y2 m2 d2))
                    rw [hs2]

/-- Counterexample to C4 as stated: a parsed payload with a negative
`subtotal` and a line item whose quantity is a negative number in a
string is passed through unchanged — the resulting record has a negative
`subtotal` and an unvalidated, non-float line-item quantity, although the
today-date supplied is canonical. -/
theorem C4_counterexample :
    postprocess (.pdict [("subtotal", .pint (-5)),
        ("lineItems", .plist [.pdict [("quantity", .pstr "-3")]])]) "2025-01-01" =
      .ok [("vendorName", PyVal.pstr "Unknown Vendor"), ("invoiceNumber", PyVal.pstr "N/A"),
           ("invoiceDate", PyVal.pstr "2025-01-01"), ("dueDate", PyVal.pstr "2025-01-01"),
           ("subtotal", PyVal.pfloat ⟨-5, 1⟩), ("tax", PyVal.pfloat pyZero),
           ("totalAmount", PyVal.pfloat pyZero), ("currency", PyVal.pstr "INR"),
           ("lineItems", PyVal.plist [.pdict [("quantity", PyVal.pstr "-3")]]),
           ("confidenceScore", PyVal.pfloat pyHalf), ("rationale", PyVal.pstr "N/A"),
           ("status", PyVal.pstr "Pending")] ∧
    ((⟨-5, 1⟩ : PyFloat).num < 0) ∧
    validDate 2025 1 1 = true ∧ "2025-01-01" = render_iso 2025 1 1 :=
  ⟨rfl, by decide, by decide, rfl⟩

/-- Witness for C4 (amended) at the empty JSON object and today-date
2025-01-01. -/
theorem C4_witness :
    ∃ y m d, validDate y m d = true ∧
      List.lookup "invoiceDate"
        [("vendorName", PyVal.pstr "Unknown Vendor"), ("invoiceNumber", PyVal.pstr "N/A"),
         ("invoiceDate", PyVal.pstr "2025-01-01"), ("dueDate", PyVal.pstr "2025-01-01"),
         ("subtotal", PyVal.pfloat pyZero), ("tax", PyVal.pfloat pyZero),
         ("totalAmount", PyVal.pfloat pyZero), ("currency", PyVal.pstr "INR"),
         ("lineItems", PyVal.plist []), ("confidenceScore", PyVal.pfloat pyHalf),
         ("rationale", PyVal.pstr "N/A"), ("status", PyVal.pstr "Pending")] =
        some (PyVal.pstr (render_iso y m d)) :=
  (C4_dates_canonical_floats_unchecked [] 2025 1 1
    [("vendorName", PyVal.pstr "Unknown Vendor"), ("invoiceNumber", PyVal.pstr "N/A"),
     ("invoiceDate", PyVal.pstr "2025-01-01"), ("dueDate", PyVal.pstr "2025-01-01"),
     ("subtotal", PyVal.pfloat pyZero), ("tax", PyVal.pfloat pyZero),
     ("totalAmount", PyVal.pfloat pyZero), ("currency", PyVal.pstr "INR"),
     ("lineItems", PyVal.plist []), ("confidenceScore", PyVal.pfloat pyHalf),
     ("rationale", PyVal.pstr "N/A"), ("status", PyVal.pstr "Pending")]
    (by decide) rfl).1

/-! ### Consumption bounds for the field matchers (claims C1 and C8) -/

theorem parseY_length (cs rest : List Char) (v : Nat) (h : parseY cs = some (v, rest)) :
    cs.length = rest.length + 4 := by
  rcases cs with _ | ⟨c1, _ | ⟨c2, _ | ⟨c3, _ | ⟨c4, t⟩⟩⟩⟩
  · simp [parseY] at h
  · simp [parseY] at h
  · simp [parseY] at h
  · simp [parseY] at h
  · simp only [parseY] at h
    split at h
    · simp only [Option.some.injEq, Prod.mk.injEq] at h
      obtain ⟨-, h2⟩ := h
      subst h2
      simp
    · exact absurd h (by simp)

theorem parse2_length (lo hi : Nat) (cs rest : List Char) (v : Nat)
    (h : parse2 lo hi cs = some (v, rest)) : rest.length + 1 ≤ cs.length := by
  rcases cs with _ | ⟨c1, _ | ⟨c2, t⟩⟩
  · simp [parse2] at h
  · simp only [parse2] at h
    split at h
    · simp only [Option.some.injEq, Prod.mk.injEq] at h
      obtain ⟨-, h2⟩ := h
      subst h2
      simp
    · exact absurd h (by simp)
  · simp only [parse2] at h
    split at h
    · split at h
      · simp only [Option.some.injEq, Prod.mk.injEq] at h
        obtain ⟨-, h2⟩ := h
        subst h2
        simp
      · exact absurd h (by simp)
    · split at h
      · simp only [Option.some.injEq, Prod.mk.injEq] at h
        obtain ⟨-, h2⟩ := h
        subst h2
        simp
      · exact absurd h (by simp)

theorem parseB_length (cs rest : List Char) (v : Nat) (h : parseB cs = some (v, rest)) :
    cs.length = rest.length + 3 := by
  rcases cs with _ | ⟨c1, _ | ⟨c2, _ | ⟨c3, t⟩⟩⟩
  · simp [parseB] at h
  · simp [parseB] at h
  · simp [parseB] at h
  · simp only [parseB] at h
    split at h
    · simp only [Option.some.injEq, Prod.mk.injEq] at h
      obtain ⟨-, h2⟩ := h
      subst h2
      simp
    · exact absurd h (by simp)

theorem length_dropWhile_le (p : Char → Bool) (l : List Char) :
    (l.dropWhile p).length ≤ l.length := by
  induction l with
  | nil => simp
  | cons a t ih =>
    rw [List.dropWhile_cons]
    split
    · exact Nat.le_trans ih (by simp)
    · simp

theorem skipWs1_length (cs rest : List Char) (h : skipWs1 cs = some rest) :
    rest.length + 1 ≤ cs.length := by
  rcases cs with _ | ⟨c, t⟩
  · simp [skipWs1] at h
  · simp only [skipWs1] at h
    split at h
    · simp only [Option.some.injEq] at h
      subst h
      have := length_dropWhile_le isSpaceChar t
      simp
      omega
    · exact absurd h (by simp)

/-- Minimal number of input characters a format consumes. -/
def minLen : List FmtTok → Nat
  | [] => 0
  | .ty :: ts => 4 + minLen ts
  | .tm :: ts => 1 + minLen ts
  | .td :: ts => 1 + minLen ts
  | .tb :: ts => 3 + minLen ts
  | .lit _ :: ts => 1 + minLen ts
  | .ws :: ts => 1 + minLen ts

theorem runFmt_length (toks : List FmtTok) :
    ∀ (cs : List Char) (acc acc' : StpAcc), runFmt toks cs acc = some acc' →
      minLen toks ≤ cs.length := by
  induction toks with
  | nil =>
    intro cs acc acc' h
    simp [minLen]
  | cons t ts ih =>
    intro cs acc acc' h
    cases t with
    | ty =>
      simp only [runFmt] at h
      cases hp : parseY cs with
      | none => rw [hp] at h; exact absurd h (by simp)
      | some p =>
        obtain ⟨v, rest⟩ := p
        rw [hp] at h
        have h1 := ih rest _ _ h
        have h2 := parseY_length cs rest v hp
        simp only [minLen]
        omega
    | tm =>
      simp only [runFmt] at h
      cases hp : parse2 1 12 cs with
      | none => rw [hp] at h; exact absurd h (by simp)
      | some p =>
        obtain ⟨v, rest⟩ := p
        rw [hp] at h
        have h1 := ih rest _ _ h
        have h2 := parse2_length 1 12 cs rest v hp
        simp only [minLen]
        omega
    | td =>
      simp only [runFmt] at h
      cases hp : parse2 1 31 cs with
      | none => rw [hp] at h; exact absurd h (by simp)
      | some p =>
        obtain ⟨v, rest⟩ := p
        rw [hp] at h
        have h1 := ih rest _ _ h
        have h2 := parse2_length 1 31 cs rest v hp
        simp only [minLen]
        omega
    | tb =>
      simp only [runFmt] at h
      cases hp : parseB cs with
      | none => rw [hp] at h; exact absurd h (by simp)
      | some p =>
        obtain ⟨v, rest⟩ := p
        rw [hp] at h
        have h1 := ih rest _ _ h
        have h2 := parseB_length cs rest v hp
        simp only [minLen]
        omega
    | lit c =>
      rcases cs with _ | ⟨c2, rest⟩
      · simp [runFmt] at h
      · simp only [runFmt] at h
        split at h
        · have h1 := ih rest _ _ h
          simp only [minLen]
          simp
          omega
        · exact absurd h (by simp)
    | ws =>
      simp only [runFmt] at h
      cases hp : skipWs1 cs with
      | none => rw [hp] at h; exact absurd h (by simp)
      | some rest =>
        rw [hp] at h
        have h1 := ih rest _ _ h
        have h2 := skipWs1_length cs rest hp
        simp only [minLen]
        omega

/-- Strings shorter than eight characters match none of the nine formats. -/
theorem strptime_none_of_short (s : String) (hs : s.data.length < 8) :
    ∀ f ∈ formats_to_try, strptime f s = none := by
  intro f hf
  cases hne : strptime f s with
  | none => rfl
  | some p =>
    exfalso
    obtain ⟨y, md⟩ := p
    obtain ⟨m, d⟩ := md
    have hlen : minLen f ≤ s.data.length := by
      unfold strptime at hne
      split at hne
      · rename_i acc hrun
        exact runFmt_length f s.data _ _ hrun
      · exact absurd hne (by simp)
    have hmin : 8 ≤ minLen f := by
      simp only [formats_to_try, List.mem_cons, List.not_mem_nil, or_false] at hf
      rcases hf with rfl | rfl | rfl | rfl | rfl | rfl | rfl | rfl | rfl <;> decide
    omega

/-! ### Claim C1: round-tripping of supported formats -/

/-- Counterexample to C1 as stated: `"02/11/2025"` is the `%d/%m/%Y`
rendering of 2 November 2025 (a supported input format), yet `parse_date`
returns `"2025-02-11"` — the month-first reading — and not the canonical
rendering of that date. -/
theorem C1_counterexample :
    strptime fmt_dmY_slash "02/11/2025" = some (2025, 11, 2) ∧
    parse_date (.pstr "02/11/2025") "1900-01-01" = .ok "2025-02-11" ∧
    "2025-02-11" ≠ render_iso 2025 11 2 :=
  ⟨rfl, rfl, by decide⟩

/-- If some format matches, `parse_date` renders the first match. -/
theorem parse_date_of_firstSome (s dflt : String) (y m d : Nat)
    (h : firstSome (formats_to_try.map (fun f => strptime f s)) = some (y, m, d)) :
    parse_date (.pstr s) dflt = .ok (render_iso y m d) := by
  have hfsome : s.data.length < 8 → False := by
    intro hsl
    have hall := strptime_none_of_short s hsl
    have hn : firstSome (formats_to_try.map (fun f => strptime f s)) = none := by
      apply firstSome_eq_none
      intro x hx
      obtain ⟨f, hf, rfl⟩ := List.mem_map.mp hx
      exact hall f hf
    rw [hn] at h
    exact absurd h (by simp)
  cases hsd : s.data with
  | nil => exact (hfsome (by rw [hsd]; simp)).elim
  | cons c t =>
    have htr : py_truthy (.pstr s) = true := by simp [py_truthy, hsd]
    have hna : asciiLower s ≠ "n/a" := by
      intro hlow
      apply hfsome
      have hlen : s.data.length = 3 := by
        have h2 := congrArg List.length (congrArg String.data hlow)
        simpa [asciiLower] using h2
      omega
    simp [parse_date, htr, hna, h]

/-- C1 (amended): for every date string that at least one of the nine
supported formats matches, `parse_date` returns the canonical
`YYYY-MM-DD` rendering of the date obtained from the FIRST matching
format in the `formats_to_try` order (for unambiguous strings this is the
date the string denotes). -/
theorem C1_first_matching_format (s dflt : String) (y m d : Nat)
    (h : firstSome (formats_to_try.map (fun f => strptime f s)) = some (y, m, d)) :
    parse_date (.pstr s) dflt = .ok (render_iso y m d) :=
  parse_date_of_firstSome s dflt y m d h

/-- Witness for C1 (amended) at the ISO string `"2025-11-02"`. -/
theorem C1_witness :
    firstSome (formats_to_try.map (fun f => strptime f "2025-11-02")) = some (2025, 11, 2) ∧
    parse_date (.pstr "2025-11-02") "1900-01-01" = .ok (render_iso 2025 11 2) :=
  ⟨rfl, C1_first_matching_format "2025-11-02" "1900-01-01" 2025 11 2 rfl⟩

/-! ### Claim C8: ambiguous all-numeric dates and the format order -/

/-- The two-field numeric date string `AA sep BB sep YYYY` (e.g.
`"02/11/2025"`), the shape that is ambiguous between the month-first and
day-first formats of a separator. -/
def numeric2 (a b : Nat) (sep : Char) (y : Nat) : String :=
  String.mk (pad2chars a ++ sep :: (pad2chars b ++ sep :: pad4chars y))

theorem digitChar_isDigit (k : Nat) (hk : k ≤ 9) :
    isDigitChar (digitChar k) = true ∧ digitVal (digitChar k) = k := by
  interval_cases k <;> exact ⟨rfl, rfl⟩

theorem parse2_pad2 (lo hi v : Nat) (rest : List Char) (hlo : lo ≤ v) (hhi : v ≤ hi)
    (h99 : v ≤ 99) : parse2 lo hi (pad2chars v ++ rest) = some (v, rest) := by
  obtain ⟨hd1, he1⟩ := digitChar_isDigit (v / 10) (by omega)
  obtain ⟨hd2, he2⟩ := digitChar_isDigit (v % 10) (by omega)
  have hv : 10 * (v / 10) + v % 10 = v := by omega
  simp [pad2chars, parse2, hd1, hd2, he1, he2, hv, hlo, hhi]

theorem parseY_pad4 (y : Nat) (rest : List Char) (hy : y ≤ 9999) :
    parseY (pad4chars y ++ rest) = some (y, rest) := by
  obtain ⟨hd1, he1⟩ := digitChar_isDigit (y / 1000) (by omega)
  obtain ⟨hd2, he2⟩ := digitChar_isDigit (y / 100 % 10) (by omega)
  obtain ⟨hd3, he3⟩ := digitChar_isDigit (y / 10 % 10) (by omega)
  obtain ⟨hd4, he4⟩ := digitChar_isDigit (y % 10) (by omega)
  have hv : 1000 * (y / 1000) + 100 * (y / 100 % 10) + 10 * (y / 10 % 10) + y % 10 = y := by
    omega
  simp [pad4chars, parseY, hd1, hd2, hd3, hd4, he1, he2, he3, he4, hv]

theorem parseY_not_digit3 (c1 c2 c : Char) (l : List Char) (h : isDigitChar c = false) :
    parseY (c1 :: c2 :: c :: l) = none := by
  cases l with
  | nil => rfl
  | cons c4 t => simp [parseY, h]

theorem daysInMonth_ge_28 (y m : Nat) : 28 ≤ daysInMonth y m := by
  unfold daysInMonth
  split
  · split <;> omega
  · split <;> omega

theorem validDate_small (y m d : Nat) (hy : 1 ≤ y ∧ y ≤ 9999) (hm : 1 ≤ m ∧ m ≤ 12)
    (hd : 1 ≤ d ∧ d ≤ 12) : validDate y m d = true := by
  have h28 := daysInMonth_ge_28 y m
  simp only [validDate, Bool.and_eq_true, decide_eq_true_eq]
  omega

/-- A month-first two-field format succeeds on its separator's numeric
string, month-first. -/
theorem strptime_mfirst (sep : Char) (a b y : Nat)
    (ha : 1 ≤ a ∧ a ≤ 12) (hb : 1 ≤ b ∧ b ≤ 12) (hy : 1 ≤ y ∧ y ≤ 9999) :
    strptime [.tm, .lit sep, .td, .lit sep, .ty] (numeric2 a b sep y) = some (y, a, b) := by
  have e1 : parse2 1 12 (pad2chars a ++ sep :: (pad2chars b ++ sep :: pad4chars y))
      = some (a, sep :: (pad2chars b ++ sep :: pad4chars y)) :=
    parse2_pad2 1 12 a _ ha.1 ha.2 (by omega)
  have e2 : parse2 1 31 (pad2chars b ++ sep :: pad4chars y)
      = some (b, sep :: pad4chars y) :=
    parse2_pad2 1 31 b _ hb.1 (by omega) (by omega)
  have e3 : parseY (pad4chars y) = some (y, []) := by
    simpa using parseY_pad4 y [] hy.2
  have hval : validDate y a b = true := validDate_small y a b hy ha hb
  unfold strptime numeric2
  simp [runFmt, e1, e2, e3, hval]

/-- A day-first two-field format succeeds on its separator's numeric
string, day-first. -/
theorem strptime_dfirst (sep : Char) (a b y : Nat)
    (ha : 1 ≤ a ∧ a ≤ 12) (hb : 1 ≤ b ∧ b ≤ 12) (hy : 1 ≤ y ∧ y ≤ 9999) :
    strptime [.td, .lit sep, .tm, .lit sep, .ty] (numeric2 a b sep y) = some (y, b, a) := by
  have e1 : parse2 1 31 (pad2chars a ++ sep :: (pad2chars b ++ sep :: pad4chars y))
      = some (a, sep :: (pad2chars b ++ sep :: pad4chars y)) :=
    parse2_pad2 1 31 a _ (by omega) (by omega) (by omega)
  have e2 : parse2 1 12 (pad2chars b ++ sep :: pad4chars y)
      = some (b, sep :: pad4chars y) :=
    parse2_pad2 1 12 b _ hb.1 hb.2 (by omega)
  have e3 : parseY (pad4chars y) = some (y, []) := by
    simpa using parseY_pad4 y [] hy.2
  have hval : validDate y b a = true := validDate_small y b a hy hb ha
  unfold strptime numeric2
  simp [runFmt, e1, e2, e3, hval]

/-- `%Y-%m-%d` fails on every two-field numeric string: its third
character is a separator where four leading digits are required. -/
theorem strptime_Ymd_numeric2 (a b y : Nat) (sep : Char) (hsep : isDigitChar sep = false) :
    strptime fmtYmd (numeric2 a b sep y) = none := by
  have hpy : parseY (pad2chars a ++ sep :: (pad2chars b ++ sep :: pad4chars y)) = none :=
    parseY_not_digit3 (digitChar (a / 10)) (digitChar (a % 10)) sep _ hsep
  unfold strptime fmtYmd numeric2
  simp [runFmt, hpy]

/-- A month-first format of a different separator fails on the string. -/
theorem strptime_mfirst_mismatch (sep1 sep2 : Char) (a b y : Nat)
    (ha : 1 ≤ a ∧ a ≤ 12) (hne : sep2 ≠ sep1) :
    strptime [.tm, .lit sep1, .td, .lit sep1, .ty] (numeric2 a b sep2 y) = none := by
  have e1 : parse2 1 12 (pad2chars a ++ sep2 :: (pad2chars b ++ sep2 :: pad4chars y))
      = some (a, sep2 :: (pad2chars b ++ sep2 :: pad4chars y)) :=
    parse2_pad2 1 12 a _ ha.1 ha.2 (by omega)
  unfold strptime numeric2
  simp [runFmt, e1, hne]

/-- A day-first format of a different separator fails on the string. -/
theorem strptime_dfirst_mismatch (sep1 sep2 : Char) (a b y : Nat)
    (ha : 1 ≤ a ∧ a ≤ 12) (hne : sep2 ≠ sep1) :
    strptime [.td, .lit sep1, .tm, .lit sep1, .ty] (numeric2 a b sep2 y) = none := by
  have e1 : parse2 1 31 (pad2chars a ++ sep2 :: (pad2chars b ++ sep2 :: pad4chars y))
      = some (a, sep2 :: (pad2chars b ++ sep2 :: pad4chars y)) :=
    parse2_pad2 1 31 a _ (by omega) (by omega) (by omega)
  unfold strptime numeric2
  simp [runFmt, e1, hne]

/-- Counterexample to C8 as stated: `"02.11.2025"` has both fields at
most 12 and matches both dot formats, but the day-first `%d.%m.%Y` comes
BEFORE the month-first `%m.%d.%Y` in the list, so the first field is
taken as the day: the result is `"2025-11-02"`, not the month-first
reading `2025-02-11`. -/
theorem C8_counterexample :
    strptime fmt_mdY_dot "02.11.2025" = some (2025, 2, 11) ∧
    strptime fmt_dmY_dot "02.11.2025" = some (2025, 11, 2) ∧
    parse_date (.pstr "02.11.2025") "1900-01-01" = .ok "2025-11-02" ∧
    "2025-11-02" ≠ render_iso 2025 2 11 :=
  ⟨rfl, rfl, rfl, by decide⟩

/-- C8 (amended): on an ambiguous all-numeric date (both fields at most
12), `parse_date` resolves month-first for the separators `/` and `-`,
whose month-first formats precede the day-first ones in
`formats_to_try` — but day-first for the separator `.`, where
`'%d.%m.%Y'` precedes `'%m.%d.%Y'` in the list. -/
theorem C8_separator_order (a b y : Nat) (dflt : String)
    (ha : 1 ≤ a ∧ a ≤ 12) (hb : 1 ≤ b ∧ b ≤ 12) (hy : 1 ≤ y ∧ y ≤ 9999) :
    parse_date (.pstr (numeric2 a b '/' y)) dflt = .ok (render_iso y a b) ∧
    parse_date (.pstr (numeric2 a b '-' y)) dflt = .ok (render_iso y a b) ∧
    parse_date (.pstr (numeric2 a b '.' y)) dflt = .ok (render_iso y b a) := by
  refine ⟨?_, ?_, ?_⟩
  · apply parse_date_of_firstSome
    have h0 := strptime_Ymd_numeric2 a b y '/' (by decide)
    have h1 : strptime fmt_mdY_slash (numeric2 a b '/' y) = some (y, a, b) :=
      strptime_mfirst '/' a b y ha hb hy
    simp [formats_to_try, firstSome, h0, h1]
  · apply parse_date_of_firstSome
    have h0 := strptime_Ymd_numeric2 a b y '-' (by decide)
    have h1 : strptime fmt_mdY_slash (numeric2 a b '-' y) = none :=
      strptime_mfirst_mismatch '/' '-' a b y ha (by decide)
    have h2 : strptime fmt_dmY_slash (numeric2 a b '-' y) = none :=
      strptime_dfirst_mismatch '/' '-' a b y ha (by decide)
    have h3 : strptime fmt_mdY_dash (numeric2 a b '-' y) = some (y, a, b) :=
      strptime_mfirst '-' a b y ha hb hy
    simp [formats_to_try, firstSome, h0, h1, h2, h3]
  · apply parse_date_of_firstSome
    have h0 := strptime_Ymd_numeric2 a b y '.' (by decide)
    have h1 : strptime fmt_mdY_slash (numeric2 a b '.' y) = none :=
      strptime_mfirst_mismatch '/' '.' a b y ha (by decide)
    have h2 : strptime fmt_dmY_slash (numeric2 a b '.' y) = none :=
      strptime_dfirst_mismatch '/' '.' a b y ha (by decide)
    have h3 : strptime fmt_mdY_dash (numeric2 a b '.' y) = none :=
      strptime_mfirst_mismatch '-' '.' a b y ha (by decide)
    have h4 : strptime fmt_dmY_dash (numeric2 a b '.' y) = none :=
      strptime_dfirst_mismatch '-' '.' a b y ha (by decide)
    have h5 : strptime fmt_dmY_dot (numeric2 a b '.' y) = some (y, b, a) :=
      strptime_dfirst '.' a b y ha hb hy
    simp [formats_to_try, firstSome, h0, h1, h2, h3, h4, h5]

/-- Witness for C8 (amended) at fields 2 and 11, year 2025. -/
theorem C8_witness :
    parse_date (.pstr (numeric2 2 11 '/' 2025)) "1900-01-01" = .ok (render_iso 2025 2 11) ∧
    parse_date (.pstr (numeric2 2 11 '-' 2025)) "1900-01-01" = .ok (render_iso 2025 2 11) ∧
    parse_date (.pstr (numeric2 2 11 '.' 2025)) "1900-01-01" = .ok (render_iso 2025 11 2) :=
  C8_separator_order 2 11 2025 "1900-01-01" (by decide) (by decide) (by decide)
